import Mathlib

set_option autoImplicit false

namespace LuaMachine

/-! Shallow embedding of the two Lua bridge classes of the LuaMachine plugin:
`ULuaCommonUIWidget` (Source/LuaMachine/Private/LuaCommonUIWidget.cpp) and
`ULuaViewModelBridge` (Source/LuaMachine/Private/LuaViewModelBridge.cpp).
The embedded Lua runtime (`FLuaValue`, `ULuaState`,
`ULuaBlueprintFunctionLibrary`) is not part of the four given source files;
it is modelled abstractly below, following the spec's description of its
interface. Side effects of the bridges (log lines, Lua invocations, delegate
broadcasts, calls into the superclass) are recorded in an explicit event
trace; Lua tables live in an explicit heap of reference-indexed field maps. -/

/-- Modelled from the spec: the Lua runtime's value representation
(`FLuaValue`), "whose value representation (table, function, nil, boolean)
is defined elsewhere".  Tables, functions and UObjects are references. -/
inductive LuaValue where
  | nil
  | boolean (b : Bool)
  | integer (n : Int)
  | str (s : String)
  | table (ref : Nat)
  | func (ref : Nat)
  | object (ref : Nat)
deriving DecidableEq, Repr

/-- Modelled from the spec: the `ELuaValueType` discriminant carried by
`FLuaValue.Type`, which the bridge code compares against
`ELuaValueType::Table`. -/
inductive ELuaValueType where
  | Nil
  | Bool
  | Integer
  | Number
  | String
  | Function
  | Table
  | UObject
  | UFunction
  | Thread
deriving DecidableEq, Repr

/-- The `Type` discriminant of a Lua value. -/
def LuaValue.luaType : LuaValue → ELuaValueType
  | .nil => .Nil
  | .boolean _ => .Bool
  | .integer _ => .Integer
  | .str _ => .String
  | .table _ => .Table
  | .func _ => .Function
  | .object _ => .UObject

/-- Association-list lookup (first binding wins). -/
def getA {α β : Type} [DecidableEq α] : List (α × β) → α → Option β
  | [], _ => none
  | (k, v) :: rest, k0 => if k = k0 then some v else getA rest k0

/-- Association-list update: replaces the binding of `k0` in place, or
appends a new binding at the end. -/
def setA {α β : Type} [DecidableEq α] : List (α × β) → α → β → List (α × β)
  | [], k0, v0 => [(k0, v0)]
  | (k, v) :: rest, k0, v0 =>
      if k = k0 then (k0, v0) :: rest else (k, v) :: setA rest k0 v0

/-- Log severities used by the bridge code (`UE_LOG` verbosity levels). -/
inductive Severity where
  | error
  | warning
  | verbose
deriving DecidableEq, Repr

/-- Observable effects of a bridge operation, in order of occurrence. -/
inductive Event where
  | log (sev : Severity) (msg : String)
  | luaCall (fn : LuaValue) (args : List LuaValue)
  | broadcastLuaActivated
  | broadcastLuaDeactivated
  | broadcastFieldValueChanged (name : String)
  | superNativeConstruct
  | superNativeDestruct
  | superNativeOnActivated
  | superNativeOnDeactivated
deriving DecidableEq, Repr

/-- A `UE_LOG` guarded by the `bLogError` flag, as every log line in the
two source files is. -/
def logIf (b : Bool) (sev : Severity) (msg : String) : List Event :=
  if b then [Event.log sev msg] else []

/-- Modelled from the spec: the heap of Lua tables owned by the embedded
Lua state.  Each table reference maps to its field list; `nextRef` is the
next unused reference. -/
structure LuaHeap where
  tables : List (Nat × List (String × LuaValue))
  nextRef : Nat
deriving DecidableEq, Repr

/-- The field list of table `r` (empty when `r` is not allocated). -/
def LuaHeap.fieldsOf (h : LuaHeap) (r : Nat) : List (String × LuaValue) :=
  (getA h.tables r).getD []

/-- Modelled from the spec: the environment provided by the out-of-scope
host systems: `ULuaBlueprintFunctionLibrary::LuaGetState` resolution of a
state class to a state instance, the Lua global table of each state class,
and the result of invoking a Lua function value on an argument list. -/
structure LuaEnv where
  resolveState : Nat → Option Nat
  globals : Nat → String → LuaValue
  call : LuaValue → List LuaValue → LuaValue

/-- Modelled from the spec: `ULuaBlueprintFunctionLibrary::LuaCreateNil`. -/
def LuaCreateNil : LuaValue := LuaValue.nil

/-- Modelled from the spec: `ULuaBlueprintFunctionLibrary::LuaCreateString`. -/
def LuaCreateString (s : String) : LuaValue := LuaValue.str s

/-- Modelled from the spec: `ULuaBlueprintFunctionLibrary::LuaCreateObject`,
wrapping a UObject identity as a Lua value. -/
def LuaCreateObject (oid : Nat) : LuaValue := LuaValue.object oid

/-- Modelled from the spec: `ULuaBlueprintFunctionLibrary::LuaValueIsFunction`. -/
def LuaValueIsFunction : LuaValue → Bool
  | .func _ => true
  | _ => false

/-- Modelled from the spec: `ULuaBlueprintFunctionLibrary::LuaValueIsNil`. -/
def LuaValueIsNil : LuaValue → Bool
  | .nil => true
  | _ => false

/-- Modelled from the spec: `ULuaBlueprintFunctionLibrary::LuaValueIsBoolean`. -/
def LuaValueIsBoolean : LuaValue → Bool
  | .boolean _ => true
  | _ => false

/-- Modelled from the spec: `ULuaBlueprintFunctionLibrary::Conv_LuaValueToBool`
(Lua truthiness: `nil` and `false` are false, everything else true). -/
def Conv_LuaValueToBool : LuaValue → Bool
  | .boolean b => b
  | .nil => false
  | _ => true

/-- Modelled from the spec: `ULuaBlueprintFunctionLibrary::LuaCreateTable`
allocates a fresh empty table in the state's heap. -/
def LuaCreateTable (h : LuaHeap) : LuaValue × LuaHeap :=
  (LuaValue.table h.nextRef,
   { tables := setA h.tables h.nextRef [], nextRef := h.nextRef + 1 })

/-- Modelled from the spec: `ULuaBlueprintFunctionLibrary::LuaTableSetField`
sets a field of the referenced table; on a non-table value it is a no-op. -/
def LuaTableSetField (h : LuaHeap) (v : LuaValue) (k : String)
    (val : LuaValue) : LuaHeap :=
  match v with
  | .table r => { h with tables := setA h.tables r (setA (h.fieldsOf r) k val) }
  | _ => h

/-- Modelled from the spec: `ULuaBlueprintFunctionLibrary::LuaTableGetField`
reads a field of the referenced table, `nil` when absent or when the value
is not a table. -/
def LuaTableGetField (h : LuaHeap) (v : LuaValue) (k : String) : LuaValue :=
  match v with
  | .table r => (getA (h.fieldsOf r) k).getD LuaValue.nil
  | _ => LuaValue.nil

/-- Modelled from the spec: `ULuaBlueprintFunctionLibrary::LuaGetGlobal`. -/
def LuaGetGlobal (env : LuaEnv) (stateClass : Nat) (name : String) : LuaValue :=
  env.globals stateClass name

/-- Modelled from the spec: `ULuaBlueprintFunctionLibrary::LuaValueCall`
invokes a Lua function value; the invocation is recorded as a trace event
and its result is supplied by the environment. -/
def LuaValueCall (env : LuaEnv) (fn : LuaValue) (args : List LuaValue) :
    LuaValue × List Event :=
  (env.call fn args, [Event.luaCall fn args])

/-- Result of a bridge method that returns nothing: the updated receiver,
the updated Lua heap, and the emitted events. -/
structure Step (σ : Type) where
  self : σ
  heap : LuaHeap
  tr : List Event
deriving DecidableEq, Repr

/-- Result of a bridge method that returns an `FLuaValue`. -/
structure RetStep (σ : Type) where
  ret : LuaValue
  self : σ
  heap : LuaHeap
  tr : List Event
deriving DecidableEq, Repr

/-- The `ULuaCommonUIWidget` bridge: its `UPROPERTY` configuration, the
`WidgetLuaTable` member, and the identity of `this` (`selfId`).
`LuaState` is `none` when the `TSubclassOf<ULuaState>` property is unset;
the optional hook names are `FString`/`FName` properties, with the empty
string standing for unset (`IsEmpty`/`IsNone`). -/
structure ULuaCommonUIWidget where
  LuaState : Option Nat
  Table : List (String × LuaValue)
  OnActivatedLuaFunction : String
  OnDeactivatedLuaFunction : String
  OnConstructedLuaFunction : String
  OnDestructedLuaFunction : String
  bLogError : Bool
  WidgetLuaTable : LuaValue
  selfId : Nat
deriving DecidableEq, Repr

/-- `ULuaCommonUIWidget::InitializeLuaTable` (LuaCommonUIWidget.cpp:77-109):
checks `LuaState`, resolves the state instance, creates the widget table,
stores the `"Widget"` self-reference, then copies every `Table` pair. -/
def ULuaCommonUIWidget.InitializeLuaTable (env : LuaEnv)
    (w : ULuaCommonUIWidget) (h : LuaHeap) : Step ULuaCommonUIWidget :=
  match w.LuaState with
  | none =>
      ⟨w, h, logIf w.bLogError Severity.error
        "LuaCommonUIWidget: LuaState is not set"⟩
  | some cls =>
      match env.resolveState cls with
      | none =>
          ⟨w, h, logIf w.bLogError Severity.error
            "LuaCommonUIWidget: Failed to get LuaState instance"⟩
      | some _ =>
          let created := LuaCreateTable h
          let w1 := { w with WidgetLuaTable := created.1 }
          let h2 := LuaTableSetField created.2 w1.WidgetLuaTable "Widget"
            (LuaCreateObject w.selfId)
          let h3 := w.Table.foldl
            (fun hh p => LuaTableSetField hh w1.WidgetLuaTable p.1 p.2) h2
          ⟨w1, h3, []⟩

/-- `ULuaCommonUIWidget::CallLuaFunctionIfExists`
(LuaCommonUIWidget.cpp:120-157): resolves the named global and, when it is
a Lua function, invokes it with the widget table as the only argument,
discarding the result. -/
def ULuaCommonUIWidget.CallLuaFunctionIfExists (env : LuaEnv)
    (w : ULuaCommonUIWidget) (FunctionName : String) : Bool × List Event :=
  if FunctionName = "" then (false, [])
  else
    match w.LuaState with
    | none =>
        (false, logIf w.bLogError Severity.error
          "LuaCommonUIWidget: LuaState is not set")
    | some cls =>
        let FunctionValue := LuaGetGlobal env cls FunctionName
        if LuaValueIsFunction FunctionValue then
          let res := LuaValueCall env FunctionValue [w.WidgetLuaTable]
          (true, res.2)
        else
          (false, logIf w.bLogError Severity.verbose
            ("LuaCommonUIWidget: Lua function not found or not callable: "
              ++ FunctionName))

/-- `ULuaCommonUIWidget::NativeConstruct` (LuaCommonUIWidget.cpp:23-29):
superclass construct, then `InitializeLuaTable`, then the
`OnConstructedLuaFunction` hook. -/
def ULuaCommonUIWidget.NativeConstruct (env : LuaEnv)
    (w : ULuaCommonUIWidget) (h : LuaHeap) : Step ULuaCommonUIWidget :=
  let s1 := ULuaCommonUIWidget.InitializeLuaTable env w h
  let c := ULuaCommonUIWidget.CallLuaFunctionIfExists env s1.self
    s1.self.OnConstructedLuaFunction
  ⟨s1.self, s1.heap, Event.superNativeConstruct :: (s1.tr ++ c.2)⟩

/-- `ULuaCommonUIWidget::NativeDestruct` (LuaCommonUIWidget.cpp:36-41):
the `OnDestructedLuaFunction` hook, then superclass destruct. -/
def ULuaCommonUIWidget.NativeDestruct (env : LuaEnv)
    (w : ULuaCommonUIWidget) (h : LuaHeap) : Step ULuaCommonUIWidget :=
  let c := ULuaCommonUIWidget.CallLuaFunctionIfExists env w
    w.OnDestructedLuaFunction
  ⟨w, h, c.2 ++ [Event.superNativeDestruct]⟩

/-- `ULuaCommonUIWidget::NativeOnActivated` (LuaCommonUIWidget.cpp:48-54):
superclass activate, the `OnActivatedLuaFunction` hook, then the
`OnLuaActivated` delegate broadcast. -/
def ULuaCommonUIWidget.NativeOnActivated (env : LuaEnv)
    (w : ULuaCommonUIWidget) (h : LuaHeap) : Step ULuaCommonUIWidget :=
  let c := ULuaCommonUIWidget.CallLuaFunctionIfExists env w
    w.OnActivatedLuaFunction
  ⟨w, h, Event.superNativeOnActivated :: (c.2 ++ [Event.broadcastLuaActivated])⟩

/-- `ULuaCommonUIWidget::NativeOnDeactivated` (LuaCommonUIWidget.cpp:61-67):
the `OnDeactivatedLuaFunction` hook, the `OnLuaDeactivated` broadcast, then
superclass deactivate. -/
def ULuaCommonUIWidget.NativeOnDeactivated (env : LuaEnv)
    (w : ULuaCommonUIWidget) (h : LuaHeap) : Step ULuaCommonUIWidget :=
  let c := ULuaCommonUIWidget.CallLuaFunctionIfExists env w
    w.OnDeactivatedLuaFunction
  ⟨w, h, c.2 ++ [Event.broadcastLuaDeactivated, Event.superNativeOnDeactivated]⟩

/-- `ULuaCommonUIWidget::LuaCallFunction` (LuaCommonUIWidget.cpp:170-195):
guarded on the widget table being initialized; looks the field up in the
widget table, and when it is a function calls it with the widget table
inserted as first argument. -/
def ULuaCommonUIWidget.LuaCallFunction (env : LuaEnv)
    (w : ULuaCommonUIWidget) (h : LuaHeap) (Name : String)
    (Args : List LuaValue) : RetStep ULuaCommonUIWidget :=
  if w.WidgetLuaTable.luaType ≠ ELuaValueType.Table then
    ⟨LuaCreateNil, w, h, logIf w.bLogError Severity.error
      "LuaCommonUIWidget: Widget Lua table is not initialized"⟩
  else
    let FunctionValue := LuaTableGetField h w.WidgetLuaTable Name
    if LuaValueIsFunction FunctionValue then
      let res := LuaValueCall env FunctionValue (w.WidgetLuaTable :: Args)
      ⟨res.1, w, h, res.2⟩
    else
      ⟨LuaCreateNil, w, h, logIf w.bLogError Severity.warning
        ("LuaCommonUIWidget: Function not found in widget table: " ++ Name)⟩

/-- `ULuaCommonUIWidget::LuaGetField` (LuaCommonUIWidget.cpp:205-217). -/
def ULuaCommonUIWidget.LuaGetField (w : ULuaCommonUIWidget) (h : LuaHeap)
    (Name : String) : RetStep ULuaCommonUIWidget :=
  if w.WidgetLuaTable.luaType ≠ ELuaValueType.Table then
    ⟨LuaCreateNil, w, h, logIf w.bLogError Severity.error
      "LuaCommonUIWidget: Widget Lua table is not initialized"⟩
  else
    ⟨LuaTableGetField h w.WidgetLuaTable Name, w, h, []⟩

/-- `ULuaCommonUIWidget::LuaSetField` (LuaCommonUIWidget.cpp:229-241). -/
def ULuaCommonUIWidget.LuaSetField (w : ULuaCommonUIWidget) (h : LuaHeap)
    (Name : String) (Value : LuaValue) : Step ULuaCommonUIWidget :=
  if w.WidgetLuaTable.luaType ≠ ELuaValueType.Table then
    ⟨w, h, logIf w.bLogError Severity.error
      "LuaCommonUIWidget: Widget Lua table is not initialized"⟩
  else
    ⟨w, LuaTableSetField h w.WidgetLuaTable Name Value, []⟩

/-- `ULuaCommonUIWidget::LuaWidgetGetState` (LuaCommonUIWidget.cpp:248-256). -/
def ULuaCommonUIWidget.LuaWidgetGetState (env : LuaEnv)
    (w : ULuaCommonUIWidget) : Option Nat :=
  match w.LuaState with
  | none => none
  | some cls => env.resolveState cls

/-- `ULuaCommonUIWidget::GetWidgetLuaTable` (LuaCommonUIWidget.h:138). -/
def ULuaCommonUIWidget.GetWidgetLuaTable (w : ULuaCommonUIWidget) : LuaValue :=
  w.WidgetLuaTable

/-- The `ULuaViewModelBridge` bridge, mirroring `ULuaCommonUIWidget` with
the `ViewModelLuaTable` member and the property get/set hook names. -/
structure ULuaViewModelBridge where
  LuaState : Option Nat
  Table : List (String × LuaValue)
  OnGetPropertyLuaFunction : String
  OnSetPropertyLuaFunction : String
  bLogError : Bool
  ViewModelLuaTable : LuaValue
  selfId : Nat
deriving DecidableEq, Repr

/-- `ULuaViewModelBridge::InitializeLuaViewModel`
(LuaViewModelBridge.cpp:22-54): checks `LuaState`, resolves the state
instance, creates the ViewModel table, stores the `"ViewModel"`
self-reference, then copies every `Table` pair. -/
def ULuaViewModelBridge.InitializeLuaViewModel (env : LuaEnv)
    (vm : ULuaViewModelBridge) (h : LuaHeap) : Step ULuaViewModelBridge :=
  match vm.LuaState with
  | none =>
      ⟨vm, h, logIf vm.bLogError Severity.error
        "LuaViewModelBridge: LuaState is not set"⟩
  | some cls =>
      match env.resolveState cls with
      | none =>
          ⟨vm, h, logIf vm.bLogError Severity.error
            "LuaViewModelBridge: Failed to get LuaState instance"⟩
      | some _ =>
          let created := LuaCreateTable h
          let vm1 := { vm with ViewModelLuaTable := created.1 }
          let h2 := LuaTableSetField created.2 vm1.ViewModelLuaTable "ViewModel"
            (LuaCreateObject vm.selfId)
          let h3 := vm.Table.foldl
            (fun hh p => LuaTableSetField hh vm1.ViewModelLuaTable p.1 p.2) h2
          ⟨vm1, h3, []⟩

/-- `ULuaViewModelBridge::CallLuaFunctionIfExists`
(LuaViewModelBridge.cpp:287-317): resolves the named global and, when it is
a Lua function, invokes it with the given arguments; `some result` models
`true` plus `OutResult`, `none` models `false`. -/
def ULuaViewModelBridge.CallLuaFunctionIfExists (env : LuaEnv)
    (vm : ULuaViewModelBridge) (FunctionName : String)
    (Args : List LuaValue) : Option LuaValue × List Event :=
  if FunctionName = "" then (none, [])
  else
    match vm.LuaState with
    | none =>
        (none, logIf vm.bLogError Severity.error
          "LuaViewModelBridge: LuaState is not set")
    | some cls =>
        let FunctionValue := LuaGetGlobal env cls FunctionName
        if LuaValueIsFunction FunctionValue then
          let res := LuaValueCall env FunctionValue Args
          (some res.1, res.2)
        else
          (none, logIf vm.bLogError Severity.warning
            ("LuaViewModelBridge: Lua function not found or not callable: "
              ++ FunctionName))

/-- `ULuaViewModelBridge::LuaBroadcastFieldValueChanged`
(LuaViewModelBridge.cpp:272-275): the MVVM field-value-changed broadcast. -/
def ULuaViewModelBridge.LuaBroadcastFieldValueChanged
    (FieldName : String) : List Event :=
  [Event.broadcastFieldValueChanged FieldName]

/-- `ULuaViewModelBridge::LuaGetProperty` (LuaViewModelBridge.cpp:65-96):
guarded on the ViewModel table; tries the `OnGetPropertyLuaFunction` hook
and uses its result when the call happened and returned non-nil, otherwise
reads the field from the ViewModel table. -/
def ULuaViewModelBridge.LuaGetProperty (env : LuaEnv)
    (vm : ULuaViewModelBridge) (h : LuaHeap) (PropertyName : String) :
    RetStep ULuaViewModelBridge :=
  if vm.ViewModelLuaTable.luaType ≠ ELuaValueType.Table then
    ⟨LuaCreateNil, vm, h, logIf vm.bLogError Severity.error
      "LuaViewModelBridge: ViewModel Lua table is not initialized. Call InitializeLuaViewModel first."⟩
  else
    if vm.OnGetPropertyLuaFunction ≠ "" then
      let Args := [vm.ViewModelLuaTable, LuaCreateString PropertyName]
      let c := ULuaViewModelBridge.CallLuaFunctionIfExists env vm
        vm.OnGetPropertyLuaFunction Args
      match c.1 with
      | some Result =>
          if ¬ LuaValueIsNil Result then
            ⟨Result, vm, h, c.2⟩
          else
            ⟨LuaTableGetField h vm.ViewModelLuaTable PropertyName, vm, h, c.2⟩
      | none =>
          ⟨LuaTableGetField h vm.ViewModelLuaTable PropertyName, vm, h, c.2⟩
    else
      ⟨LuaTableGetField h vm.ViewModelLuaTable PropertyName, vm, h, []⟩

/-- `ULuaViewModelBridge::LuaSetProperty` (LuaViewModelBridge.cpp:106-168):
guarded on the ViewModel table; consults the `OnSetPropertyLuaFunction`
hook (boolean `true` result: handled without writing; boolean `false`:
rejected; otherwise write the field directly), and broadcasts the
field-value change exactly when `bPropertyWasSet` ends up true. -/
def ULuaViewModelBridge.LuaSetProperty (env : LuaEnv)
    (vm : ULuaViewModelBridge) (h : LuaHeap) (PropertyName : String)
    (Value : LuaValue) : Step ULuaViewModelBridge :=
  if vm.ViewModelLuaTable.luaType ≠ ELuaValueType.Table then
    ⟨vm, h, logIf vm.bLogError Severity.error
      "LuaViewModelBridge: ViewModel Lua table is not initialized. Call InitializeLuaViewModel first."⟩
  else
    let inner : LuaHeap × Bool × List Event :=
      if vm.OnSetPropertyLuaFunction ≠ "" then
        let Args := [vm.ViewModelLuaTable, LuaCreateString PropertyName, Value]
        let c := ULuaViewModelBridge.CallLuaFunctionIfExists env vm
          vm.OnSetPropertyLuaFunction Args
        match c.1 with
        | some Result =>
            if LuaValueIsBoolean Result then
              if Conv_LuaValueToBool Result then (h, true, c.2)
              else (h, false, c.2)
            else
              (LuaTableSetField h vm.ViewModelLuaTable PropertyName Value,
               true, c.2)
        | none =>
            (LuaTableSetField h vm.ViewModelLuaTable PropertyName Value,
             true, c.2)
      else
        (LuaTableSetField h vm.ViewModelLuaTable PropertyName Value, true, [])
    if inner.2.1 then
      ⟨vm, inner.1,
       inner.2.2 ++ ULuaViewModelBridge.LuaBroadcastFieldValueChanged PropertyName⟩
    else
      ⟨vm, inner.1, inner.2.2⟩

/-- `ULuaViewModelBridge::LuaCallFunction` (LuaViewModelBridge.cpp:179-204). -/
def ULuaViewModelBridge.LuaCallFunction (env : LuaEnv)
    (vm : ULuaViewModelBridge) (h : LuaHeap) (Name : String)
    (Args : List LuaValue) : RetStep ULuaViewModelBridge :=
  if vm.ViewModelLuaTable.luaType ≠ ELuaValueType.Table then
    ⟨LuaCreateNil, vm, h, logIf vm.bLogError Severity.error
      "LuaViewModelBridge: ViewModel Lua table is not initialized"⟩
  else
    let FunctionValue := LuaTableGetField h vm.ViewModelLuaTable Name
    if LuaValueIsFunction FunctionValue then
      let res := LuaValueCall env FunctionValue (vm.ViewModelLuaTable :: Args)
      ⟨res.1, vm, h, res.2⟩
    else
      ⟨LuaCreateNil, vm, h, logIf vm.bLogError Severity.warning
        ("LuaViewModelBridge: Function not found in ViewModel table: " ++ Name)⟩

/-- `ULuaViewModelBridge::LuaGetField` (LuaViewModelBridge.cpp:214-226). -/
def ULuaViewModelBridge.LuaGetField (vm : ULuaViewModelBridge) (h : LuaHeap)
    (Name : String) : RetStep ULuaViewModelBridge :=
  if vm.ViewModelLuaTable.luaType ≠ ELuaValueType.Table then
    ⟨LuaCreateNil, vm, h, logIf vm.bLogError Severity.error
      "LuaViewModelBridge: ViewModel Lua table is not initialized"⟩
  else
    ⟨LuaTableGetField h vm.ViewModelLuaTable Name, vm, h, []⟩

/-- `ULuaViewModelBridge::LuaSetField` (LuaViewModelBridge.cpp:236-248). -/
def ULuaViewModelBridge.LuaSetField (vm : ULuaViewModelBridge) (h : LuaHeap)
    (Name : String) (Value : LuaValue) : Step ULuaViewModelBridge :=
  if vm.ViewModelLuaTable.luaType ≠ ELuaValueType.Table then
    ⟨vm, h, logIf vm.bLogError Severity.error
      "LuaViewModelBridge: ViewModel Lua table is not initialized"⟩
  else
    ⟨vm, LuaTableSetField h vm.ViewModelLuaTable Name Value, []⟩

/-- `ULuaViewModelBridge::LuaViewModelGetState`
(LuaViewModelBridge.cpp:257-265). -/
def ULuaViewModelBridge.LuaViewModelGetState (env : LuaEnv)
    (vm : ULuaViewModelBridge) : Option Nat :=
  match vm.LuaState with
  | none => none
  | some cls => env.resolveState cls

/-- `ULuaViewModelBridge::GetViewModelLuaTable` (LuaViewModelBridge.h:142). -/
def ULuaViewModelBridge.GetViewModelLuaTable
    (vm : ULuaViewModelBridge) : LuaValue :=
  vm.ViewModelLuaTable

/-! ### Claim statements -/

/-- Claim C1 property: `LuaCallFunction` (on either bridge) looks the
named field up in the instance's Lua table; when it is a function it is
invoked with the instance table prepended to the supplied arguments and
its return value is returned; otherwise no Lua call happens and a Lua
`nil` is returned. -/
def C1Prop (env : LuaEnv) (w : ULuaCommonUIWidget) (vm : ULuaViewModelBridge)
    (h : LuaHeap) (Name : String) (Args : List LuaValue) : Prop :=
  (let fv := LuaTableGetField h w.WidgetLuaTable Name
   let s := ULuaCommonUIWidget.LuaCallFunction env w h Name Args
   (LuaValueIsFunction fv = true →
      s.ret = env.call fv (w.WidgetLuaTable :: Args) ∧
      s.tr = [Event.luaCall fv (w.WidgetLuaTable :: Args)]) ∧
   (LuaValueIsFunction fv = false →
      s.ret = LuaCreateNil ∧ ∀ f a, Event.luaCall f a ∉ s.tr)) ∧
  (let fv := LuaTableGetField h vm.ViewModelLuaTable Name
   let s := ULuaViewModelBridge.LuaCallFunction env vm h Name Args
   (LuaValueIsFunction fv = true →
      s.ret = env.call fv (vm.ViewModelLuaTable :: Args) ∧
      s.tr = [Event.luaCall fv (vm.ViewModelLuaTable :: Args)]) ∧
   (LuaValueIsFunction fv = false →
      s.ret = LuaCreateNil ∧ ∀ f a, Event.luaCall f a ∉ s.tr))

/-- Claim C2 property: the `LuaSetProperty` protocol.  When the setter
hook is configured and resolves to a callable global, a boolean `true`
result means set-without-write, a boolean `false` result means rejected
(no write, no broadcast), a non-boolean result means direct write; when
the hook is unconfigured or not callable the field is written directly.
The field-value-changed broadcast happens exactly in the cases that count
as set. -/
def C2Prop (env : LuaEnv) (vm : ULuaViewModelBridge) (h : LuaHeap)
    (P : String) (V : LuaValue) : Prop :=
  let s := ULuaViewModelBridge.LuaSetProperty env vm h P V
  let written := LuaTableSetField h vm.ViewModelLuaTable P V
  (∀ cls, vm.OnSetPropertyLuaFunction ≠ "" → vm.LuaState = some cls →
    LuaValueIsFunction (env.globals cls vm.OnSetPropertyLuaFunction) = true →
    let r := env.call (env.globals cls vm.OnSetPropertyLuaFunction)
      [vm.ViewModelLuaTable, LuaCreateString P, V]
    (r = LuaValue.boolean true →
       s.heap = h ∧ Event.broadcastFieldValueChanged P ∈ s.tr) ∧
    (r = LuaValue.boolean false →
       s.heap = h ∧ ∀ n, Event.broadcastFieldValueChanged n ∉ s.tr) ∧
    (LuaValueIsBoolean r = false →
       s.heap = written ∧ Event.broadcastFieldValueChanged P ∈ s.tr)) ∧
  (vm.OnSetPropertyLuaFunction = "" →
     s.heap = written ∧ Event.broadcastFieldValueChanged P ∈ s.tr) ∧
  (vm.LuaState = none →
     s.heap = written ∧ Event.broadcastFieldValueChanged P ∈ s.tr) ∧
  (∀ cls, vm.LuaState = some cls →
    LuaValueIsFunction (env.globals cls vm.OnSetPropertyLuaFunction) = false →
    s.heap = written ∧ Event.broadcastFieldValueChanged P ∈ s.tr)

/-- Claim C3 property: `LuaGetProperty` returns the getter hook's result
when the hook is configured, resolves to a callable global and returns a
non-nil value; in every other case it returns the field read directly
from the ViewModel table. -/
def C3Prop (env : LuaEnv) (vm : ULuaViewModelBridge) (h : LuaHeap)
    (P : String) : Prop :=
  let s := ULuaViewModelBridge.LuaGetProperty env vm h P
  let direct := LuaTableGetField h vm.ViewModelLuaTable P
  (∀ cls, vm.OnGetPropertyLuaFunction ≠ "" → vm.LuaState = some cls →
    LuaValueIsFunction (env.globals cls vm.OnGetPropertyLuaFunction) = true →
    let r := env.call (env.globals cls vm.OnGetPropertyLuaFunction)
      [vm.ViewModelLuaTable, LuaCreateString P]
    (LuaValueIsNil r = false → s.ret = r) ∧
    (r = LuaValue.nil → s.ret = direct)) ∧
  (vm.OnGetPropertyLuaFunction = "" → s.ret = direct) ∧
  (vm.LuaState = none → s.ret = direct) ∧
  (∀ cls, vm.LuaState = some cls →
    LuaValueIsFunction (env.globals cls vm.OnGetPropertyLuaFunction) = false →
    s.ret = direct)

/-- Claim C4 property (amended): after a successful initialization the
per-instance table holds every configured `Table` pair, and it holds the
object self-reference under `"Widget"`/`"ViewModel"` provided the
configured `Table` map does not itself contain that key (otherwise the
configured value wins, see C9). -/
def C4Prop (env : LuaEnv) (w : ULuaCommonUIWidget) (vm : ULuaViewModelBridge)
    (h : LuaHeap) : Prop :=
  (let s := ULuaCommonUIWidget.InitializeLuaTable env w h
   ("Widget" ∉ w.Table.map Prod.fst →
      LuaTableGetField s.heap s.self.WidgetLuaTable "Widget"
        = LuaCreateObject w.selfId) ∧
   (∀ k v, (w.Table.map Prod.fst).Nodup → (k, v) ∈ w.Table →
      LuaTableGetField s.heap s.self.WidgetLuaTable k = v)) ∧
  (let s := ULuaViewModelBridge.InitializeLuaViewModel env vm h
   ("ViewModel" ∉ vm.Table.map Prod.fst →
      LuaTableGetField s.heap s.self.ViewModelLuaTable "ViewModel"
        = LuaCreateObject vm.selfId) ∧
   (∀ k v, (vm.Table.map Prod.fst).Nodup → (k, v) ∈ vm.Table →
      LuaTableGetField s.heap s.self.ViewModelLuaTable k = v))

/-- Claim C5 property: initialization allocates exactly one fresh Lua
table and stores it in the instance, and no non-initialization operation
replaces the stored table value or allocates another table. -/
def C5Prop (env : LuaEnv) (w : ULuaCommonUIWidget) (vm : ULuaViewModelBridge)
    (h : LuaHeap) (Name P : String) (Value : LuaValue)
    (Args : List LuaValue) : Prop :=
  ((∀ p ∈ h.tables, p.1 < h.nextRef) →
    getA h.tables h.nextRef = none ∧
    (ULuaCommonUIWidget.InitializeLuaTable env w h).self.WidgetLuaTable
      = LuaValue.table h.nextRef ∧
    (ULuaCommonUIWidget.InitializeLuaTable env w h).heap.nextRef
      = h.nextRef + 1 ∧
    (ULuaViewModelBridge.InitializeLuaViewModel env vm h).self.ViewModelLuaTable
      = LuaValue.table h.nextRef ∧
    (ULuaViewModelBridge.InitializeLuaViewModel env vm h).heap.nextRef
      = h.nextRef + 1) ∧
  (ULuaCommonUIWidget.LuaGetField w h Name).self = w ∧
  (ULuaCommonUIWidget.LuaGetField w h Name).heap = h ∧
  (ULuaCommonUIWidget.LuaSetField w h Name Value).self = w ∧
  (ULuaCommonUIWidget.LuaSetField w h Name Value).heap.nextRef = h.nextRef ∧
  (ULuaCommonUIWidget.LuaCallFunction env w h Name Args).self = w ∧
  (ULuaCommonUIWidget.LuaCallFunction env w h Name Args).heap = h ∧
  (ULuaCommonUIWidget.NativeDestruct env w h).self = w ∧
  (ULuaCommonUIWidget.NativeDestruct env w h).heap = h ∧
  (ULuaCommonUIWidget.NativeOnActivated env w h).self = w ∧
  (ULuaCommonUIWidget.NativeOnActivated env w h).heap = h ∧
  (ULuaCommonUIWidget.NativeOnDeactivated env w h).self = w ∧
  (ULuaCommonUIWidget.NativeOnDeactivated env w h).heap = h ∧
  (ULuaViewModelBridge.LuaGetField vm h Name).self = vm ∧
  (ULuaViewModelBridge.LuaGetField vm h Name).heap = h ∧
  (ULuaViewModelBridge.LuaSetField vm h Name Value).self = vm ∧
  (ULuaViewModelBridge.LuaSetField vm h Name Value).heap.nextRef = h.nextRef ∧
  (ULuaViewModelBridge.LuaGetProperty env vm h P).self = vm ∧
  (ULuaViewModelBridge.LuaGetProperty env vm h P).heap = h ∧
  (ULuaViewModelBridge.LuaSetProperty env vm h P Value).self = vm ∧
  (ULuaViewModelBridge.LuaSetProperty env vm h P Value).heap.nextRef
    = h.nextRef ∧
  (ULuaViewModelBridge.LuaCallFunction env vm h Name Args).self = vm ∧
  (ULuaViewModelBridge.LuaCallFunction env vm h Name Args).heap = h

/-- Claim C6 property: when `LuaState` is unset, or the state instance
cannot be resolved, initialization returns with the instance and the heap
untouched, and an error log event is emitted exactly when `bLogError`. -/
def C6Prop (env : LuaEnv) (w : ULuaCommonUIWidget) (vm : ULuaViewModelBridge)
    (h : LuaHeap) : Prop :=
  (w.LuaState = none →
    (ULuaCommonUIWidget.InitializeLuaTable env w h).self = w ∧
    (ULuaCommonUIWidget.InitializeLuaTable env w h).heap = h ∧
    ((∃ m, Event.log Severity.error m
        ∈ (ULuaCommonUIWidget.InitializeLuaTable env w h).tr)
      ↔ w.bLogError = true)) ∧
  (∀ cls, w.LuaState = some cls → env.resolveState cls = none →
    (ULuaCommonUIWidget.InitializeLuaTable env w h).self = w ∧
    (ULuaCommonUIWidget.InitializeLuaTable env w h).heap = h ∧
    ((∃ m, Event.log Severity.error m
        ∈ (ULuaCommonUIWidget.InitializeLuaTable env w h).tr)
      ↔ w.bLogError = true)) ∧
  (vm.LuaState = none →
    (ULuaViewModelBridge.InitializeLuaViewModel env vm h).self = vm ∧
    (ULuaViewModelBridge.InitializeLuaViewModel env vm h).heap = h ∧
    ((∃ m, Event.log Severity.error m
        ∈ (ULuaViewModelBridge.InitializeLuaViewModel env vm h).tr)
      ↔ vm.bLogError = true)) ∧
  (∀ cls, vm.LuaState = some cls → env.resolveState cls = none →
    (ULuaViewModelBridge.InitializeLuaViewModel env vm h).self = vm ∧
    (ULuaViewModelBridge.InitializeLuaViewModel env vm h).heap = h ∧
    ((∃ m, Event.log Severity.error m
        ∈ (ULuaViewModelBridge.InitializeLuaViewModel env vm h).tr)
      ↔ vm.bLogError = true))

/-- Claim C7 property: no operation other than initialization reads or
modifies the configured `Table` map: every such operation leaves the map
in place, and its results and effects are identical on two instances that
differ only in their `Table` map. -/
def C7Prop (env : LuaEnv) (w : ULuaCommonUIWidget) (vm : ULuaViewModelBridge)
    (h : LuaHeap) (T1 T2 : List (String × LuaValue)) (Name P : String)
    (Value : LuaValue) (Args : List LuaValue) : Prop :=
  let w1 := { w with Table := T1 }
  let w2 := { w with Table := T2 }
  let vm1 := { vm with Table := T1 }
  let vm2 := { vm with Table := T2 }
  (ULuaCommonUIWidget.LuaGetField w h Name).self.Table = w.Table ∧
  (ULuaCommonUIWidget.LuaSetField w h Name Value).self.Table = w.Table ∧
  (ULuaCommonUIWidget.LuaCallFunction env w h Name Args).self.Table
    = w.Table ∧
  (ULuaCommonUIWidget.NativeDestruct env w h).self.Table = w.Table ∧
  (ULuaCommonUIWidget.NativeOnActivated env w h).self.Table = w.Table ∧
  (ULuaCommonUIWidget.NativeOnDeactivated env w h).self.Table = w.Table ∧
  (ULuaViewModelBridge.LuaGetField vm h Name).self.Table = vm.Table ∧
  (ULuaViewModelBridge.LuaSetField vm h Name Value).self.Table = vm.Table ∧
  (ULuaViewModelBridge.LuaCallFunction env vm h Name Args).self.Table
    = vm.Table ∧
  (ULuaViewModelBridge.LuaGetProperty env vm h P).self.Table = vm.Table ∧
  (ULuaViewModelBridge.LuaSetProperty env vm h P Value).self.Table
    = vm.Table ∧
  (ULuaCommonUIWidget.LuaGetField w1 h Name).ret
    = (ULuaCommonUIWidget.LuaGetField w2 h Name).ret ∧
  (ULuaCommonUIWidget.LuaGetField w1 h Name).heap
    = (ULuaCommonUIWidget.LuaGetField w2 h Name).heap ∧
  (ULuaCommonUIWidget.LuaGetField w1 h Name).tr
    = (ULuaCommonUIWidget.LuaGetField w2 h Name).tr ∧
  (ULuaCommonUIWidget.LuaSetField w1 h Name Value).heap
    = (ULuaCommonUIWidget.LuaSetField w2 h Name Value).heap ∧
  (ULuaCommonUIWidget.LuaSetField w1 h Name Value).tr
    = (ULuaCommonUIWidget.LuaSetField w2 h Name Value).tr ∧
  (ULuaCommonUIWidget.LuaCallFunction env w1 h Name Args).ret
    = (ULuaCommonUIWidget.LuaCallFunction env w2 h Name Args).ret ∧
  (ULuaCommonUIWidget.LuaCallFunction env w1 h Name Args).heap
    = (ULuaCommonUIWidget.LuaCallFunction env w2 h Name Args).heap ∧
  (ULuaCommonUIWidget.LuaCallFunction env w1 h Name Args).tr
    = (ULuaCommonUIWidget.LuaCallFunction env w2 h Name Args).tr ∧
  (ULuaCommonUIWidget.NativeDestruct env w1 h).tr
    = (ULuaCommonUIWidget.NativeDestruct env w2 h).tr ∧
  (ULuaCommonUIWidget.NativeOnActivated env w1 h).tr
    = (ULuaCommonUIWidget.NativeOnActivated env w2 h).tr ∧
  (ULuaCommonUIWidget.NativeOnDeactivated env w1 h).tr
    = (ULuaCommonUIWidget.NativeOnDeactivated env w2 h).tr ∧
  ULuaCommonUIWidget.LuaWidgetGetState env w1
    = ULuaCommonUIWidget.LuaWidgetGetState env w2 ∧
  (ULuaViewModelBridge.LuaGetField vm1 h Name).ret
    = (ULuaViewModelBridge.LuaGetField vm2 h Name).ret ∧
  (ULuaViewModelBridge.LuaSetField vm1 h Name Value).heap
    = (ULuaViewModelBridge.LuaSetField vm2 h Name Value).heap ∧
  (ULuaViewModelBridge.LuaCallFunction env vm1 h Name Args).ret
    = (ULuaViewModelBridge.LuaCallFunction env vm2 h Name Args).ret ∧
  (ULuaViewModelBridge.LuaGetProperty env vm1 h P).ret
    = (ULuaViewModelBridge.LuaGetProperty env vm2 h P).ret ∧
  (ULuaViewModelBridge.LuaGetProperty env vm1 h P).tr
    = (ULuaViewModelBridge.LuaGetProperty env vm2 h P).tr ∧
  (ULuaViewModelBridge.LuaSetProperty env vm1 h P Value).heap
    = (ULuaViewModelBridge.LuaSetProperty env vm2 h P Value).heap ∧
  (ULuaViewModelBridge.LuaSetProperty env vm1 h P Value).tr
    = (ULuaViewModelBridge.LuaSetProperty env vm2 h P Value).tr ∧
  ULuaViewModelBridge.LuaViewModelGetState env vm1
    = ULuaViewModelBridge.LuaViewModelGetState env vm2

/-- Claim C8 property: the lifecycle traces.  `NativeConstruct` is the
superclass construct, then initialization, then the construct hook called
on the freshly initialized table; `NativeOnActivated` runs the hook before
the `OnLuaActivated` broadcast; `NativeOnDeactivated` runs the hook, then
the `OnLuaDeactivated` broadcast, then the superclass deactivation. -/
def C8Prop (env : LuaEnv) (w : ULuaCommonUIWidget) (h : LuaHeap)
    (cls : Nat) : Prop :=
  ((ULuaCommonUIWidget.NativeConstruct env w h).tr
     = [Event.superNativeConstruct,
        Event.luaCall (env.globals cls w.OnConstructedLuaFunction)
          [LuaValue.table h.nextRef]] ∧
   (ULuaCommonUIWidget.NativeConstruct env w h).self.WidgetLuaTable
     = LuaValue.table h.nextRef) ∧
  (ULuaCommonUIWidget.NativeOnActivated env w h).tr
    = [Event.superNativeOnActivated,
       Event.luaCall (env.globals cls w.OnActivatedLuaFunction)
         [w.WidgetLuaTable],
       Event.broadcastLuaActivated] ∧
  (ULuaCommonUIWidget.NativeOnDeactivated env w h).tr
    = [Event.luaCall (env.globals cls w.OnDeactivatedLuaFunction)
         [w.WidgetLuaTable],
       Event.broadcastLuaDeactivated,
       Event.superNativeOnDeactivated]

/-- Claim C9 property: when the configured `Table` map itself binds the
self-reference key, the configured value overwrites the object
self-reference written by initialization. -/
def C9Prop (env : LuaEnv) (w : ULuaCommonUIWidget) (vm : ULuaViewModelBridge)
    (h : LuaHeap) : Prop :=
  (∀ v0, (w.Table.map Prod.fst).Nodup → ("Widget", v0) ∈ w.Table →
    LuaTableGetField (ULuaCommonUIWidget.InitializeLuaTable env w h).heap
      (ULuaCommonUIWidget.InitializeLuaTable env w h).self.WidgetLuaTable
      "Widget" = v0 ∧
    (v0 ≠ LuaCreateObject w.selfId →
      LuaTableGetField (ULuaCommonUIWidget.InitializeLuaTable env w h).heap
        (ULuaCommonUIWidget.InitializeLuaTable env w h).self.WidgetLuaTable
        "Widget" ≠ LuaCreateObject w.selfId)) ∧
  (∀ v0, (vm.Table.map Prod.fst).Nodup → ("ViewModel", v0) ∈ vm.Table →
    LuaTableGetField
      (ULuaViewModelBridge.InitializeLuaViewModel env vm h).heap
      (ULuaViewModelBridge.InitializeLuaViewModel env vm h).self.ViewModelLuaTable
      "ViewModel" = v0 ∧
    (v0 ≠ LuaCreateObject vm.selfId →
      LuaTableGetField
        (ULuaViewModelBridge.InitializeLuaViewModel env vm h).heap
        (ULuaViewModelBridge.InitializeLuaViewModel env vm h).self.ViewModelLuaTable
        "ViewModel" ≠ LuaCreateObject vm.selfId))

/-- Claim C10 property: with an uninitialized instance table, the getters
and call forwarders return Lua `nil` and never invoke a Lua function, and
the setters leave the heap untouched and broadcast nothing. -/
def C10Prop (env : LuaEnv) (w : ULuaCommonUIWidget)
    (vm : ULuaViewModelBridge) (h : LuaHeap) (Name P : String)
    (Value : LuaValue) (Args : List LuaValue) : Prop :=
  (ULuaCommonUIWidget.LuaGetField w h Name).ret = LuaCreateNil ∧
  (∀ f a, Event.luaCall f a ∉ (ULuaCommonUIWidget.LuaGetField w h Name).tr) ∧
  (ULuaCommonUIWidget.LuaCallFunction env w h Name Args).ret = LuaCreateNil ∧
  (∀ f a, Event.luaCall f a
      ∉ (ULuaCommonUIWidget.LuaCallFunction env w h Name Args).tr) ∧
  (ULuaCommonUIWidget.LuaSetField w h Name Value).heap = h ∧
  (ULuaCommonUIWidget.LuaSetField w h Name Value).self = w ∧
  (ULuaViewModelBridge.LuaGetProperty env vm h P).ret = LuaCreateNil ∧
  (∀ f a, Event.luaCall f a
      ∉ (ULuaViewModelBridge.LuaGetProperty env vm h P).tr) ∧
  (ULuaViewModelBridge.LuaSetProperty env vm h P Value).heap = h ∧
  (∀ f a, Event.luaCall f a
      ∉ (ULuaViewModelBridge.LuaSetProperty env vm h P Value).tr) ∧
  (∀ n, Event.broadcastFieldValueChanged n
      ∉ (ULuaViewModelBridge.LuaSetProperty env vm h P Value).tr) ∧
  (ULuaViewModelBridge.LuaCallFunction env vm h Name Args).ret
    = LuaCreateNil ∧
  (∀ f a, Event.luaCall f a
      ∉ (ULuaViewModelBridge.LuaCallFunction env vm h Name Args).tr) ∧
  (ULuaViewModelBridge.LuaGetField vm h Name).ret = LuaCreateNil ∧
  (ULuaViewModelBridge.LuaSetField vm h Name Value).heap = h ∧
  (ULuaViewModelBridge.LuaSetField vm h Name Value).self = vm

/-! ### Concrete instances for witnesses and counterexamples -/

/-- A concrete Lua environment: every state class resolves to instance 0,
the global `"gfun"` is a Lua function, every Lua call returns `42`. -/
def envW : LuaEnv :=
  { resolveState := fun _ => some 0,
    globals := fun _ n => if n = "gfun" then LuaValue.func 5 else LuaValue.nil,
    call := fun _ _ => LuaValue.integer 42 }

/-- A concrete heap holding one table (reference 0) whose field `"f"` is a
Lua function. -/
def heapW : LuaHeap :=
  { tables := [(0, [("f", LuaValue.func 9)])], nextRef := 1 }

/-- A concrete widget bridge with an initialized Lua table. -/
def widgetW : ULuaCommonUIWidget :=
  { LuaState := some 0, Table := [("x", LuaValue.integer 1)],
    OnActivatedLuaFunction := "gfun", OnDeactivatedLuaFunction := "gfun",
    OnConstructedLuaFunction := "gfun", OnDestructedLuaFunction := "gfun",
    bLogError := true, WidgetLuaTable := LuaValue.table 0, selfId := 7 }

/-- A concrete view-model bridge with an initialized Lua table. -/
def vmW : ULuaViewModelBridge :=
  { LuaState := some 0, Table := [("x", LuaValue.integer 1)],
    OnGetPropertyLuaFunction := "gfun", OnSetPropertyLuaFunction := "gfun",
    bLogError := true, ViewModelLuaTable := LuaValue.table 0, selfId := 8 }

/-- A widget whose configured `Table` binds the key `"Widget"`: input of
the C4 counterexample. -/
def widgetC4 : ULuaCommonUIWidget :=
  { widgetW with Table := [("Widget", LuaValue.integer 0)] }

/-- A widget whose configured `Table` binds `"Widget"`, for the C9
witness. -/
def widgetC9 : ULuaCommonUIWidget :=
  { widgetW with Table := [("Widget", LuaValue.integer 3)] }

/-- A view-model bridge whose configured `Table` binds `"ViewModel"`, for
the C9 witness. -/
def vmC9 : ULuaViewModelBridge :=
  { vmW with Table := [("ViewModel", LuaValue.integer 4)] }

/-- A widget whose Lua table was never initialized. -/
def widgetU : ULuaCommonUIWidget :=
  { widgetW with WidgetLuaTable := LuaValue.nil }

/-- A view-model bridge whose Lua table was never initialized. -/
def vmU : ULuaViewModelBridge :=
  { vmW with ViewModelLuaTable := LuaValue.nil }

/-! ### Association-list and heap lemmas -/

theorem getA_setA_self {α β : Type} [DecidableEq α]
    (l : List (α × β)) (k : α) (v : β) : getA (setA l k v) k = some v := by
  induction l with
  | nil => simp [setA, getA]
  | cons p rest ih =>
      obtain ⟨a, b⟩ := p
      by_cases hk : a = k
      · simp [setA, hk, getA]
      · simp [setA, hk, getA, ih]

theorem getA_setA_ne {α β : Type} [DecidableEq α]
    (l : List (α × β)) (k k0 : α) (v : β) (hne : k ≠ k0) :
    getA (setA l k0 v) k = getA l k := by
  have hne2 : ¬ (k0 = k) := fun hh => hne hh.symm
  induction l with
  | nil => simp only [setA, getA, if_neg hne2]
  | cons p rest ih =>
      obtain ⟨a, b⟩ := p
      by_cases ha : a = k0
      · simp only [setA, if_pos ha, getA, if_neg hne2,
          if_neg (fun hh => hne2 (ha.symm.trans hh))]
      · simp only [setA, if_neg ha, getA, ih]

/-- The fields written into a Lua table by iterating
`LuaTableSetField` over a configured pair list, viewed at the
association-list level. -/
def writeFields (fs ps : List (String × LuaValue)) :
    List (String × LuaValue) :=
  ps.foldl (fun acc p => setA acc p.1 p.2) fs

theorem writeFields_nil (fs : List (String × LuaValue)) :
    writeFields fs [] = fs := rfl

theorem writeFields_cons (fs : List (String × LuaValue))
    (p : String × LuaValue) (ps : List (String × LuaValue)) :
    writeFields fs (p :: ps) = writeFields (setA fs p.1 p.2) ps := rfl

theorem getA_writeFields_not_mem (ps fs : List (String × LuaValue))
    (k : String) (hk : k ∉ ps.map Prod.fst) :
    getA (writeFields fs ps) k = getA fs k := by
  induction ps generalizing fs with
  | nil => rfl
  | cons p rest ih =>
      obtain ⟨a, b⟩ := p
      simp only [List.map_cons, List.mem_cons] at hk
      push_neg at hk
      rw [writeFields_cons, ih _ hk.2, getA_setA_ne _ _ _ _ hk.1]

theorem getA_writeFields_mem (ps fs : List (String × LuaValue))
    (k : String) (v : LuaValue) (hnd : (ps.map Prod.fst).Nodup)
    (hmem : (k, v) ∈ ps) :
    getA (writeFields fs ps) k = some v := by
  induction ps generalizing fs with
  | nil => cases hmem
  | cons p rest ih =>
      obtain ⟨a, b⟩ := p
      simp only [List.map_cons, List.nodup_cons] at hnd
      rcases List.mem_cons.mp hmem with heq | htail
      · obtain ⟨rfl, rfl⟩ := Prod.mk.injEq .. ▸ heq
        have hnotin : k ∉ rest.map Prod.fst := hnd.1
        rw [writeFields_cons, getA_writeFields_not_mem _ _ _ hnotin]
        exact getA_setA_self _ _ _
      · exact writeFields_cons .. ▸ ih _ hnd.2 htail

theorem LuaTableSetField_nextRef (h : LuaHeap) (v : LuaValue) (k : String)
    (val : LuaValue) : (LuaTableSetField h v k val).nextRef = h.nextRef := by
  cases v <;> rfl

theorem foldl_LuaTableSetField_nextRef (ps : List (String × LuaValue))
    (h : LuaHeap) (v : LuaValue) :
    (ps.foldl (fun hh p => LuaTableSetField hh v p.1 p.2) h).nextRef
      = h.nextRef := by
  induction ps generalizing h with
  | nil => rfl
  | cons p rest ih => rw [List.foldl_cons, ih, LuaTableSetField_nextRef]

theorem fieldsOf_LuaTableSetField_self (h : LuaHeap) (r : Nat) (k : String)
    (val : LuaValue) :
    (LuaTableSetField h (LuaValue.table r) k val).fieldsOf r
      = setA (h.fieldsOf r) k val := by
  simp [LuaTableSetField, LuaHeap.fieldsOf, getA_setA_self]

theorem fieldsOf_foldl_LuaTableSetField (ps : List (String × LuaValue))
    (h : LuaHeap) (r : Nat) :
    (ps.foldl (fun hh p => LuaTableSetField hh (LuaValue.table r) p.1 p.2)
        h).fieldsOf r
      = writeFields (h.fieldsOf r) ps := by
  induction ps generalizing h with
  | nil => rfl
  | cons p rest ih =>
      rw [List.foldl_cons, ih, fieldsOf_LuaTableSetField_self,
        writeFields_cons]

theorem getA_none_of_forall_lt {β : Type} (l : List (Nat × β)) (n : Nat)
    (hl : ∀ p ∈ l, p.1 < n) : getA l n = none := by
  induction l with
  | nil => rfl
  | cons p rest ih =>
      have hp := hl p (List.mem_cons_self p rest)
      have hne : p.1 ≠ n := Nat.ne_of_lt hp
      obtain ⟨a, b⟩ := p
      simp only [getA]
      rw [if_neg hne]
      exact ih (fun q hq => hl q (List.mem_cons_of_mem _ hq))

/-! ### Characterization of successful initialization -/

/-- On success, `ULuaCommonUIWidget::InitializeLuaTable` stores a fresh
table reference in `WidgetLuaTable`, allocates exactly one table, fills it
with the `"Widget"` self-reference followed by the configured `Table`
pairs, and emits no events. -/
theorem InitializeLuaTable_success (env : LuaEnv) (w : ULuaCommonUIWidget)
    (h : LuaHeap) (cls st : Nat) (h1 : w.LuaState = some cls)
    (h2 : env.resolveState cls = some st) :
    (ULuaCommonUIWidget.InitializeLuaTable env w h).self
        = { w with WidgetLuaTable := LuaValue.table h.nextRef } ∧
    (ULuaCommonUIWidget.InitializeLuaTable env w h).heap.nextRef
        = h.nextRef + 1 ∧
    (ULuaCommonUIWidget.InitializeLuaTable env w h).heap.fieldsOf h.nextRef
        = writeFields [("Widget", LuaCreateObject w.selfId)] w.Table ∧
    (ULuaCommonUIWidget.InitializeLuaTable env w h).tr = [] := by
  refine ⟨?_, ?_, ?_, ?_⟩
  · simp [ULuaCommonUIWidget.InitializeLuaTable, h1, h2, LuaCreateTable]
  · simp only [ULuaCommonUIWidget.InitializeLuaTable, h1, h2, LuaCreateTable]
    rw [foldl_LuaTableSetField_nextRef, LuaTableSetField_nextRef]
  · simp only [ULuaCommonUIWidget.InitializeLuaTable, h1, h2, LuaCreateTable]
    rw [fieldsOf_foldl_LuaTableSetField, fieldsOf_LuaTableSetField_self]
    have hempty :
        (LuaHeap.mk (setA h.tables h.nextRef []) (h.nextRef + 1)).fieldsOf
          h.nextRef = [] := by
      simp [LuaHeap.fieldsOf, getA_setA_self]
    rw [hempty]
    rfl
  · simp [ULuaCommonUIWidget.InitializeLuaTable, h1, h2]

/-- On success, `ULuaViewModelBridge::InitializeLuaViewModel` stores a
fresh table reference in `ViewModelLuaTable`, allocates exactly one table,
fills it with the `"ViewModel"` self-reference followed by the configured
`Table` pairs, and emits no events. -/
theorem InitializeLuaViewModel_success (env : LuaEnv)
    (vm : ULuaViewModelBridge) (h : LuaHeap) (cls st : Nat)
    (h1 : vm.LuaState = some cls) (h2 : env.resolveState cls = some st) :
    (ULuaViewModelBridge.InitializeLuaViewModel env vm h).self
        = { vm with ViewModelLuaTable := LuaValue.table h.nextRef } ∧
    (ULuaViewModelBridge.InitializeLuaViewModel env vm h).heap.nextRef
        = h.nextRef + 1 ∧
    (ULuaViewModelBridge.InitializeLuaViewModel env vm h).heap.fieldsOf
        h.nextRef
        = writeFields [("ViewModel", LuaCreateObject vm.selfId)] vm.Table ∧
    (ULuaViewModelBridge.InitializeLuaViewModel env vm h).tr = [] := by
  refine ⟨?_, ?_, ?_, ?_⟩
  · simp [ULuaViewModelBridge.InitializeLuaViewModel, h1, h2, LuaCreateTable]
  · simp only [ULuaViewModelBridge.InitializeLuaViewModel, h1, h2,
      LuaCreateTable]
    rw [foldl_LuaTableSetField_nextRef, LuaTableSetField_nextRef]
  · simp only [ULuaViewModelBridge.InitializeLuaViewModel, h1, h2,
      LuaCreateTable]
    rw [fieldsOf_foldl_LuaTableSetField, fieldsOf_LuaTableSetField_self]
    have hempty :
        (LuaHeap.mk (setA h.tables h.nextRef []) (h.nextRef + 1)).fieldsOf
          h.nextRef = [] := by
      simp [LuaHeap.fieldsOf, getA_setA_self]
    rw [hempty]
    rfl
  · simp [ULuaViewModelBridge.InitializeLuaViewModel, h1, h2]

theorem luaCall_not_mem_logIf (f : LuaValue) (a : List LuaValue) (b : Bool)
    (sev : Severity) (msg : String) : Event.luaCall f a ∉ logIf b sev msg := by
  cases b <;> simp [logIf]

theorem broadcastFVC_not_mem_logIf (n : String) (b : Bool) (sev : Severity)
    (msg : String) :
    Event.broadcastFieldValueChanged n ∉ logIf b sev msg := by
  cases b <;> simp [logIf]

/-! ### Claim theorems -/

/-- C1: for every bridge instance with an initialized Lua table and every
field name and argument list, `LuaCallFunction` looks the named field up
in the instance's Lua table; if that field is a function it is invoked
with the instance's Lua table prepended to the supplied arguments and its
return value is returned; otherwise no call is made and a Lua nil is
returned. -/
theorem C1_luaCallFunction_forwarding (env : LuaEnv) (w : ULuaCommonUIWidget)
    (vm : ULuaViewModelBridge) (h : LuaHeap) (Name : String)
    (Args : List LuaValue)
    (hw : w.WidgetLuaTable.luaType = ELuaValueType.Table)
    (hv : vm.ViewModelLuaTable.luaType = ELuaValueType.Table) :
    C1Prop env w vm h Name Args := by
  unfold C1Prop
  refine ⟨⟨fun hf => ?_, fun hf => ?_⟩, ⟨fun hf => ?_, fun hf => ?_⟩⟩
  · simp [ULuaCommonUIWidget.LuaCallFunction, hw, hf, LuaValueCall]
  · cases hb : w.bLogError <;>
      simp [ULuaCommonUIWidget.LuaCallFunction, hw, hf, hb, logIf]
  · simp [ULuaViewModelBridge.LuaCallFunction, hv, hf, LuaValueCall]
  · cases hb : vm.bLogError <;>
      simp [ULuaViewModelBridge.LuaCallFunction, hv, hf, hb, logIf]

/-- Witness for C1 at a concrete environment, widget, view model and
heap. -/
theorem C1_witness :
    widgetW.WidgetLuaTable.luaType = ELuaValueType.Table ∧
    vmW.ViewModelLuaTable.luaType = ELuaValueType.Table ∧
    C1Prop envW widgetW vmW heapW "f" [] :=
  ⟨by decide, by decide,
    C1_luaCallFunction_forwarding envW widgetW vmW heapW "f" []
      (by decide) (by decide)⟩

/-- C2: `LuaSetProperty` protocol of `ULuaViewModelBridge`: a configured
callable setter returning boolean true counts as set without a write;
returning boolean false counts as not set and leaves the field unchanged;
any other case writes the field directly and counts as set; the
field-value-changed broadcast happens exactly when the property counts as
set. -/
theorem C2_luaSetProperty_protocol (env : LuaEnv) (vm : ULuaViewModelBridge)
    (h : LuaHeap) (P : String) (V : LuaValue)
    (hv : vm.ViewModelLuaTable.luaType = ELuaValueType.Table) :
    C2Prop env vm h P V := by
  unfold C2Prop
  refine ⟨?_, ?_, ?_, ?_⟩
  · intro cls hne hst hfun
    refine ⟨fun hr => ?_, fun hr => ?_, fun hr => ?_⟩
    · simp [ULuaViewModelBridge.LuaSetProperty,
        ULuaViewModelBridge.CallLuaFunctionIfExists, LuaGetGlobal,
        LuaValueCall, hv, hne, hst, hfun, hr, LuaValueIsBoolean,
        Conv_LuaValueToBool, ULuaViewModelBridge.LuaBroadcastFieldValueChanged]
    · simp [ULuaViewModelBridge.LuaSetProperty,
        ULuaViewModelBridge.CallLuaFunctionIfExists, LuaGetGlobal,
        LuaValueCall, hv, hne, hst, hfun, hr, LuaValueIsBoolean,
        Conv_LuaValueToBool, ULuaViewModelBridge.LuaBroadcastFieldValueChanged]
    · simp [ULuaViewModelBridge.LuaSetProperty,
        ULuaViewModelBridge.CallLuaFunctionIfExists, LuaGetGlobal,
        LuaValueCall, hv, hne, hst, hfun, hr,
        ULuaViewModelBridge.LuaBroadcastFieldValueChanged]
  · intro hne
    simp [ULuaViewModelBridge.LuaSetProperty, hv, hne,
      ULuaViewModelBridge.LuaBroadcastFieldValueChanged]
  · intro hst
    by_cases hne : vm.OnSetPropertyLuaFunction = ""
    · simp [ULuaViewModelBridge.LuaSetProperty, hv, hne,
        ULuaViewModelBridge.LuaBroadcastFieldValueChanged]
    · simp [ULuaViewModelBridge.LuaSetProperty,
        ULuaViewModelBridge.CallLuaFunctionIfExists, hv, hne, hst,
        ULuaViewModelBridge.LuaBroadcastFieldValueChanged]
  · intro cls hst hfun
    by_cases hne : vm.OnSetPropertyLuaFunction = ""
    · simp [ULuaViewModelBridge.LuaSetProperty, hv, hne,
        ULuaViewModelBridge.LuaBroadcastFieldValueChanged]
    · simp [ULuaViewModelBridge.LuaSetProperty,
        ULuaViewModelBridge.CallLuaFunctionIfExists, LuaGetGlobal, hv, hne,
        hst, hfun, ULuaViewModelBridge.LuaBroadcastFieldValueChanged]

/-- Witness for C2 at a concrete environment, view model and heap. -/
theorem C2_witness :
    vmW.ViewModelLuaTable.luaType = ELuaValueType.Table ∧
    C2Prop envW vmW heapW "p" (LuaValue.integer 5) :=
  ⟨by decide,
    C2_luaSetProperty_protocol envW vmW heapW "p" (LuaValue.integer 5)
      (by decide)⟩

/-- C3: `LuaGetProperty` returns the configured getter hook's value when
the hook resolves to a callable global and returns non-nil; otherwise it
returns the field read directly from the ViewModel Lua table. -/
theorem C3_luaGetProperty_override (env : LuaEnv) (vm : ULuaViewModelBridge)
    (h : LuaHeap) (P : String)
    (hv : vm.ViewModelLuaTable.luaType = ELuaValueType.Table) :
    C3Prop env vm h P := by
  unfold C3Prop
  refine ⟨?_, ?_, ?_, ?_⟩
  · intro cls hne hst hfun
    refine ⟨fun hr => ?_, fun hr => ?_⟩
    · simp [ULuaViewModelBridge.LuaGetProperty,
        ULuaViewModelBridge.CallLuaFunctionIfExists, LuaGetGlobal,
        LuaValueCall, hv, hne, hst, hfun, hr]
    · simp [ULuaViewModelBridge.LuaGetProperty,
        ULuaViewModelBridge.CallLuaFunctionIfExists, LuaGetGlobal,
        LuaValueCall, hv, hne, hst, hfun, hr, LuaValueIsNil]
  · intro hne
    simp [ULuaViewModelBridge.LuaGetProperty, hv, hne]
  · intro hst
    by_cases hne : vm.OnGetPropertyLuaFunction = ""
    · simp [ULuaViewModelBridge.LuaGetProperty, hv, hne]
    · simp [ULuaViewModelBridge.LuaGetProperty,
        ULuaViewModelBridge.CallLuaFunctionIfExists, hv, hne, hst]
  · intro cls hst hfun
    by_cases hne : vm.OnGetPropertyLuaFunction = ""
    · simp [ULuaViewModelBridge.LuaGetProperty, hv, hne]
    · simp [ULuaViewModelBridge.LuaGetProperty,
        ULuaViewModelBridge.CallLuaFunctionIfExists, LuaGetGlobal, hv, hne,
        hst, hfun]

/-- Witness for C3 at a concrete environment, view model and heap. -/
theorem C3_witness :
    vmW.ViewModelLuaTable.luaType = ELuaValueType.Table ∧
    C3Prop envW vmW heapW "p" :=
  ⟨by decide, C3_luaGetProperty_override envW vmW heapW "p" (by decide)⟩

/-! ### Frame lemmas: non-initialization operations do not touch the
receiver and allocate no table -/

theorem widget_LuaGetField_self (w : ULuaCommonUIWidget) (h : LuaHeap)
    (Name : String) : (ULuaCommonUIWidget.LuaGetField w h Name).self = w := by
  unfold ULuaCommonUIWidget.LuaGetField
  split <;> rfl

theorem widget_LuaGetField_heap (w : ULuaCommonUIWidget) (h : LuaHeap)
    (Name : String) : (ULuaCommonUIWidget.LuaGetField w h Name).heap = h := by
  unfold ULuaCommonUIWidget.LuaGetField
  split <;> rfl

theorem widget_LuaSetField_self (w : ULuaCommonUIWidget) (h : LuaHeap)
    (Name : String) (Value : LuaValue) :
    (ULuaCommonUIWidget.LuaSetField w h Name Value).self = w := by
  unfold ULuaCommonUIWidget.LuaSetField
  split <;> rfl

theorem widget_LuaSetField_nextRef (w : ULuaCommonUIWidget) (h : LuaHeap)
    (Name : String) (Value : LuaValue) :
    (ULuaCommonUIWidget.LuaSetField w h Name Value).heap.nextRef
      = h.nextRef := by
  unfold ULuaCommonUIWidget.LuaSetField
  split
  · rfl
  · exact LuaTableSetField_nextRef ..

theorem widget_LuaCallFunction_self (env : LuaEnv) (w : ULuaCommonUIWidget)
    (h : LuaHeap) (Name : String) (Args : List LuaValue) :
    (ULuaCommonUIWidget.LuaCallFunction env w h Name Args).self = w := by
  unfold ULuaCommonUIWidget.LuaCallFunction
  split
  · rfl
  · dsimp only
    split <;> rfl

theorem widget_LuaCallFunction_heap (env : LuaEnv) (w : ULuaCommonUIWidget)
    (h : LuaHeap) (Name : String) (Args : List LuaValue) :
    (ULuaCommonUIWidget.LuaCallFunction env w h Name Args).heap = h := by
  unfold ULuaCommonUIWidget.LuaCallFunction
  split
  · rfl
  · dsimp only
    split <;> rfl

theorem vmb_LuaGetField_self (vm : ULuaViewModelBridge) (h : LuaHeap)
    (Name : String) : (ULuaViewModelBridge.LuaGetField vm h Name).self = vm := by
  unfold ULuaViewModelBridge.LuaGetField
  split <;> rfl

theorem vmb_LuaGetField_heap (vm : ULuaViewModelBridge) (h : LuaHeap)
    (Name : String) : (ULuaViewModelBridge.LuaGetField vm h Name).heap = h := by
  unfold ULuaViewModelBridge.LuaGetField
  split <;> rfl

theorem vmb_LuaSetField_self (vm : ULuaViewModelBridge) (h : LuaHeap)
    (Name : String) (Value : LuaValue) :
    (ULuaViewModelBridge.LuaSetField vm h Name Value).self = vm := by
  unfold ULuaViewModelBridge.LuaSetField
  split <;> rfl

theorem vmb_LuaSetField_nextRef (vm : ULuaViewModelBridge) (h : LuaHeap)
    (Name : String) (Value : LuaValue) :
    (ULuaViewModelBridge.LuaSetField vm h Name Value).heap.nextRef
      = h.nextRef := by
  unfold ULuaViewModelBridge.LuaSetField
  split
  · rfl
  · exact LuaTableSetField_nextRef ..

theorem vmb_LuaCallFunction_self (env : LuaEnv) (vm : ULuaViewModelBridge)
    (h : LuaHeap) (Name : String) (Args : List LuaValue) :
    (ULuaViewModelBridge.LuaCallFunction env vm h Name Args).self = vm := by
  unfold ULuaViewModelBridge.LuaCallFunction
  split
  · rfl
  · dsimp only
    split <;> rfl

theorem vmb_LuaCallFunction_heap (env : LuaEnv) (vm : ULuaViewModelBridge)
    (h : LuaHeap) (Name : String) (Args : List LuaValue) :
    (ULuaViewModelBridge.LuaCallFunction env vm h Name Args).heap = h := by
  unfold ULuaViewModelBridge.LuaCallFunction
  split
  · rfl
  · dsimp only
    split <;> rfl

theorem vmb_LuaGetProperty_self (env : LuaEnv) (vm : ULuaViewModelBridge)
    (h : LuaHeap) (P : String) :
    (ULuaViewModelBridge.LuaGetProperty env vm h P).self = vm := by
  unfold ULuaViewModelBridge.LuaGetProperty
  dsimp only
  repeat' split
  all_goals rfl

theorem vmb_LuaGetProperty_heap (env : LuaEnv) (vm : ULuaViewModelBridge)
    (h : LuaHeap) (P : String) :
    (ULuaViewModelBridge.LuaGetProperty env vm h P).heap = h := by
  unfold ULuaViewModelBridge.LuaGetProperty
  dsimp only
  repeat' split
  all_goals rfl

theorem vmb_LuaSetProperty_self (env : LuaEnv) (vm : ULuaViewModelBridge)
    (h : LuaHeap) (P : String) (Value : LuaValue) :
    (ULuaViewModelBridge.LuaSetProperty env vm h P Value).self = vm := by
  unfold ULuaViewModelBridge.LuaSetProperty
  dsimp only
  repeat' split
  all_goals rfl

theorem vmb_LuaSetProperty_nextRef (env : LuaEnv) (vm : ULuaViewModelBridge)
    (h : LuaHeap) (P : String) (Value : LuaValue) :
    (ULuaViewModelBridge.LuaSetProperty env vm h P Value).heap.nextRef
      = h.nextRef := by
  unfold ULuaViewModelBridge.LuaSetProperty
  dsimp only
  repeat' split
  all_goals simp [LuaTableSetField_nextRef]

/-- C4 counterexample: a widget whose configured `Table` binds the key
`"Widget"` initializes successfully, yet the `"Widget"` field of the
per-widget Lua table is not an object reference to the widget, against
the claim as stated. -/
theorem C4_counterexample :
    (ULuaCommonUIWidget.InitializeLuaTable envW widgetC4
        heapW).self.WidgetLuaTable.luaType = ELuaValueType.Table ∧
    LuaTableGetField
        (ULuaCommonUIWidget.InitializeLuaTable envW widgetC4 heapW).heap
        (ULuaCommonUIWidget.InitializeLuaTable envW widgetC4
          heapW).self.WidgetLuaTable "Widget"
      ≠ LuaCreateObject widgetC4.selfId := by
  decide

/-- C4 (amended): after a successful initialization, the per-instance Lua
table holds every configured `Table` pair under its key, and it holds the
object self-reference under `"Widget"`/`"ViewModel"` provided the
configured `Table` map does not itself bind that key. -/
theorem C4_init_populates_table (env : LuaEnv) (w : ULuaCommonUIWidget)
    (vm : ULuaViewModelBridge) (h : LuaHeap) (clsW stW clsV stV : Nat)
    (hw1 : w.LuaState = some clsW) (hw2 : env.resolveState clsW = some stW)
    (hv1 : vm.LuaState = some clsV) (hv2 : env.resolveState clsV = some stV) :
    C4Prop env w vm h := by
  obtain ⟨hselfW, hnrW, hfW, htrW⟩ :=
    InitializeLuaTable_success env w h clsW stW hw1 hw2
  obtain ⟨hselfV, hnrV, hfV, htrV⟩ :=
    InitializeLuaViewModel_success env vm h clsV stV hv1 hv2
  have htblW : (ULuaCommonUIWidget.InitializeLuaTable env w
      h).self.WidgetLuaTable = LuaValue.table h.nextRef := by rw [hselfW]
  have htblV : (ULuaViewModelBridge.InitializeLuaViewModel env vm
      h).self.ViewModelLuaTable = LuaValue.table h.nextRef := by rw [hselfV]
  unfold C4Prop
  refine ⟨⟨fun hk => ?_, fun k v hnd hmem => ?_⟩,
    ⟨fun hk => ?_, fun k v hnd hmem => ?_⟩⟩
  · rw [htblW]
    simp only [LuaTableGetField]
    rw [hfW, getA_writeFields_not_mem _ _ _ hk]
    simp [getA, LuaCreateObject]
  · rw [htblW]
    simp only [LuaTableGetField]
    rw [hfW, getA_writeFields_mem _ _ _ _ hnd hmem]
    rfl
  · rw [htblV]
    simp only [LuaTableGetField]
    rw [hfV, getA_writeFields_not_mem _ _ _ hk]
    simp [getA, LuaCreateObject]
  · rw [htblV]
    simp only [LuaTableGetField]
    rw [hfV, getA_writeFields_mem _ _ _ _ hnd hmem]
    rfl

/-- Witness for the amended C4 at a concrete environment and bridges. -/
theorem C4_witness :
    widgetW.LuaState = some 0 ∧ envW.resolveState 0 = some 0 ∧
    vmW.LuaState = some 0 ∧
    C4Prop envW widgetW vmW heapW :=
  ⟨by decide, by decide, by decide,
    C4_init_populates_table envW widgetW vmW heapW 0 0 0 0
      (by decide) (by decide) (by decide) (by decide)⟩

/-- C9: initialization writes the self-reference before copying the
configured `Table` map, so a `Table` entry keyed `"Widget"`
(resp. `"ViewModel"`) overwrites the object self-reference, which is then
no longer reachable through that field. -/
theorem C9_table_overwrites_selfref (env : LuaEnv) (w : ULuaCommonUIWidget)
    (vm : ULuaViewModelBridge) (h : LuaHeap) (clsW stW clsV stV : Nat)
    (hw1 : w.LuaState = some clsW) (hw2 : env.resolveState clsW = some stW)
    (hv1 : vm.LuaState = some clsV) (hv2 : env.resolveState clsV = some stV) :
    C9Prop env w vm h := by
  obtain ⟨hselfW, hnrW, hfW, htrW⟩ :=
    InitializeLuaTable_success env w h clsW stW hw1 hw2
  obtain ⟨hselfV, hnrV, hfV, htrV⟩ :=
    InitializeLuaViewModel_success env vm h clsV stV hv1 hv2
  have htblW : (ULuaCommonUIWidget.InitializeLuaTable env w
      h).self.WidgetLuaTable = LuaValue.table h.nextRef := by rw [hselfW]
  have htblV : (ULuaViewModelBridge.InitializeLuaViewModel env vm
      h).self.ViewModelLuaTable = LuaValue.table h.nextRef := by rw [hselfV]
  unfold C9Prop
  constructor
  · intro v0 hnd hmem
    have hval : LuaTableGetField
        (ULuaCommonUIWidget.InitializeLuaTable env w h).heap
        (ULuaCommonUIWidget.InitializeLuaTable env w h).self.WidgetLuaTable
        "Widget" = v0 := by
      rw [htblW]
      simp only [LuaTableGetField]
      rw [hfW, getA_writeFields_mem _ _ _ _ hnd hmem]
      rfl
    exact ⟨hval, fun hne => hval ▸ hne⟩
  · intro v0 hnd hmem
    have hval : LuaTableGetField
        (ULuaViewModelBridge.InitializeLuaViewModel env vm h).heap
        (ULuaViewModelBridge.InitializeLuaViewModel env vm
          h).self.ViewModelLuaTable "ViewModel" = v0 := by
      rw [htblV]
      simp only [LuaTableGetField]
      rw [hfV, getA_writeFields_mem _ _ _ _ hnd hmem]
      rfl
    exact ⟨hval, fun hne => hval ▸ hne⟩

/-- Witness for C9 at concrete bridges whose `Table` maps bind the
self-reference keys. -/
theorem C9_witness :
    widgetC9.LuaState = some 0 ∧ envW.resolveState 0 = some 0 ∧
    vmC9.LuaState = some 0 ∧
    C9Prop envW widgetC9 vmC9 heapW :=
  ⟨by decide, by decide, by decide,
    C9_table_overwrites_selfref envW widgetC9 vmC9 heapW 0 0 0 0
      (by decide) (by decide) (by decide) (by decide)⟩

/-- C5: initialization creates exactly one fresh per-instance Lua table
(one allocation, stored in the instance), and no non-initialization
operation replaces the stored table or allocates another one. -/
theorem C5_single_table (env : LuaEnv) (w : ULuaCommonUIWidget)
    (vm : ULuaViewModelBridge) (h : LuaHeap) (Name P : String)
    (Value : LuaValue) (Args : List LuaValue) (clsW stW clsV stV : Nat)
    (hw1 : w.LuaState = some clsW) (hw2 : env.resolveState clsW = some stW)
    (hv1 : vm.LuaState = some clsV) (hv2 : env.resolveState clsV = some stV) :
    C5Prop env w vm h Name P Value Args := by
  obtain ⟨hselfW, hnrW, _, _⟩ :=
    InitializeLuaTable_success env w h clsW stW hw1 hw2
  obtain ⟨hselfV, hnrV, _, _⟩ :=
    InitializeLuaViewModel_success env vm h clsV stV hv1 hv2
  unfold C5Prop
  refine ⟨fun hwf => ⟨getA_none_of_forall_lt _ _ hwf, by rw [hselfW], hnrW,
      by rw [hselfV], hnrV⟩,
    widget_LuaGetField_self .., widget_LuaGetField_heap ..,
    widget_LuaSetField_self .., widget_LuaSetField_nextRef ..,
    widget_LuaCallFunction_self .., widget_LuaCallFunction_heap ..,
    rfl, rfl, rfl, rfl, rfl, rfl,
    vmb_LuaGetField_self .., vmb_LuaGetField_heap ..,
    vmb_LuaSetField_self .., vmb_LuaSetField_nextRef ..,
    vmb_LuaGetProperty_self .., vmb_LuaGetProperty_heap ..,
    vmb_LuaSetProperty_self .., vmb_LuaSetProperty_nextRef ..,
    vmb_LuaCallFunction_self .., vmb_LuaCallFunction_heap ..⟩

/-- Witness for C5 at a concrete environment, bridges and heap. -/
theorem C5_witness :
    widgetW.LuaState = some 0 ∧ envW.resolveState 0 = some 0 ∧
    vmW.LuaState = some 0 ∧
    C5Prop envW widgetW vmW heapW "f" "p" (LuaValue.integer 5) [] :=
  ⟨by decide, by decide, by decide,
    C5_single_table envW widgetW vmW heapW "f" "p" (LuaValue.integer 5) []
      0 0 0 0 (by decide) (by decide) (by decide) (by decide)⟩

/-- C6: when `LuaState` is unset or its state instance cannot be
resolved, initialization leaves the bridge instance and the Lua heap
untouched, and an error is logged exactly when `bLogError` is set. -/
theorem C6_init_failure (env : LuaEnv) (w : ULuaCommonUIWidget)
    (vm : ULuaViewModelBridge) (h : LuaHeap) : C6Prop env w vm h := by
  unfold C6Prop
  refine ⟨fun hst => ?_, fun cls hst hres => ?_, fun hst => ?_,
    fun cls hst hres => ?_⟩
  · refine ⟨?_, ?_, ?_⟩
    · simp [ULuaCommonUIWidget.InitializeLuaTable, hst]
    · simp [ULuaCommonUIWidget.InitializeLuaTable, hst]
    · cases hb : w.bLogError <;>
        simp [ULuaCommonUIWidget.InitializeLuaTable, hst, hb, logIf]
  · refine ⟨?_, ?_, ?_⟩
    · simp [ULuaCommonUIWidget.InitializeLuaTable, hst, hres]
    · simp [ULuaCommonUIWidget.InitializeLuaTable, hst, hres]
    · cases hb : w.bLogError <;>
        simp [ULuaCommonUIWidget.InitializeLuaTable, hst, hres, hb, logIf]
  · refine ⟨?_, ?_, ?_⟩
    · simp [ULuaViewModelBridge.InitializeLuaViewModel, hst]
    · simp [ULuaViewModelBridge.InitializeLuaViewModel, hst]
    · cases hb : vm.bLogError <;>
        simp [ULuaViewModelBridge.InitializeLuaViewModel, hst, hb, logIf]
  · refine ⟨?_, ?_, ?_⟩
    · simp [ULuaViewModelBridge.InitializeLuaViewModel, hst, hres]
    · simp [ULuaViewModelBridge.InitializeLuaViewModel, hst, hres]
    · cases hb : vm.bLogError <;>
        simp [ULuaViewModelBridge.InitializeLuaViewModel, hst, hres, hb,
          logIf]

/-! ### Table-map irrelevance lemmas: every non-initialization operation
is oblivious to the configured `Table` map -/

theorem widget_CallIfExists_Table_irrel (env : LuaEnv)
    (w : ULuaCommonUIWidget) (T : List (String × LuaValue)) (n : String) :
    ULuaCommonUIWidget.CallLuaFunctionIfExists env { w with Table := T } n
      = ULuaCommonUIWidget.CallLuaFunctionIfExists env w n := by
  unfold ULuaCommonUIWidget.CallLuaFunctionIfExists
  cases hL : w.LuaState <;> simp [hL]

theorem vmb_CallIfExists_Table_irrel (env : LuaEnv)
    (vm : ULuaViewModelBridge) (T : List (String × LuaValue)) (n : String)
    (Args : List LuaValue) :
    ULuaViewModelBridge.CallLuaFunctionIfExists env { vm with Table := T } n
        Args
      = ULuaViewModelBridge.CallLuaFunctionIfExists env vm n Args := by
  unfold ULuaViewModelBridge.CallLuaFunctionIfExists
  cases hL : vm.LuaState <;> simp [hL]

theorem widget_LuaGetField_setTable (w : ULuaCommonUIWidget) (h : LuaHeap)
    (Name : String) (T : List (String × LuaValue)) :
    ULuaCommonUIWidget.LuaGetField { w with Table := T } h Name
      = { ULuaCommonUIWidget.LuaGetField w h Name with
          self := { w with Table := T } } := by
  unfold ULuaCommonUIWidget.LuaGetField
  dsimp only
  repeat' split
  all_goals simp_all

theorem widget_LuaSetField_setTable (w : ULuaCommonUIWidget) (h : LuaHeap)
    (Name : String) (Value : LuaValue) (T : List (String × LuaValue)) :
    ULuaCommonUIWidget.LuaSetField { w with Table := T } h Name Value
      = { ULuaCommonUIWidget.LuaSetField w h Name Value with
          self := { w with Table := T } } := by
  unfold ULuaCommonUIWidget.LuaSetField
  dsimp only
  repeat' split
  all_goals simp_all

theorem widget_LuaCallFunction_setTable (env : LuaEnv)
    (w : ULuaCommonUIWidget) (h : LuaHeap) (Name : String)
    (Args : List LuaValue) (T : List (String × LuaValue)) :
    ULuaCommonUIWidget.LuaCallFunction env { w with Table := T } h Name Args
      = { ULuaCommonUIWidget.LuaCallFunction env w h Name Args with
          self := { w with Table := T } } := by
  unfold ULuaCommonUIWidget.LuaCallFunction
  dsimp only
  repeat' split
  all_goals simp_all

theorem widget_NativeDestruct_setTable (env : LuaEnv)
    (w : ULuaCommonUIWidget) (h : LuaHeap) (T : List (String × LuaValue)) :
    ULuaCommonUIWidget.NativeDestruct env { w with Table := T } h
      = { ULuaCommonUIWidget.NativeDestruct env w h with
          self := { w with Table := T } } := by
  unfold ULuaCommonUIWidget.NativeDestruct
  dsimp only
  rw [widget_CallIfExists_Table_irrel]

theorem widget_NativeOnActivated_setTable (env : LuaEnv)
    (w : ULuaCommonUIWidget) (h : LuaHeap) (T : List (String × LuaValue)) :
    ULuaCommonUIWidget.NativeOnActivated env { w with Table := T } h
      = { ULuaCommonUIWidget.NativeOnActivated env w h with
          self := { w with Table := T } } := by
  unfold ULuaCommonUIWidget.NativeOnActivated
  dsimp only
  rw [widget_CallIfExists_Table_irrel]

theorem widget_NativeOnDeactivated_setTable (env : LuaEnv)
    (w : ULuaCommonUIWidget) (h : LuaHeap) (T : List (String × LuaValue)) :
    ULuaCommonUIWidget.NativeOnDeactivated env { w with Table := T } h
      = { ULuaCommonUIWidget.NativeOnDeactivated env w h with
          self := { w with Table := T } } := by
  unfold ULuaCommonUIWidget.NativeOnDeactivated
  dsimp only
  rw [widget_CallIfExists_Table_irrel]

theorem widget_GetState_setTable (env : LuaEnv) (w : ULuaCommonUIWidget)
    (T : List (String × LuaValue)) :
    ULuaCommonUIWidget.LuaWidgetGetState env { w with Table := T }
      = ULuaCommonUIWidget.LuaWidgetGetState env w := rfl

theorem vmb_LuaGetField_setTable (vm : ULuaViewModelBridge) (h : LuaHeap)
    (Name : String) (T : List (String × LuaValue)) :
    ULuaViewModelBridge.LuaGetField { vm with Table := T } h Name
      = { ULuaViewModelBridge.LuaGetField vm h Name with
          self := { vm with Table := T } } := by
  unfold ULuaViewModelBridge.LuaGetField
  dsimp only
  repeat' split
  all_goals simp_all

theorem vmb_LuaSetField_setTable (vm : ULuaViewModelBridge) (h : LuaHeap)
    (Name : String) (Value : LuaValue) (T : List (String × LuaValue)) :
    ULuaViewModelBridge.LuaSetField { vm with Table := T } h Name Value
      = { ULuaViewModelBridge.LuaSetField vm h Name Value with
          self := { vm with Table := T } } := by
  unfold ULuaViewModelBridge.LuaSetField
  dsimp only
  repeat' split
  all_goals simp_all

theorem vmb_LuaCallFunction_setTable (env : LuaEnv)
    (vm : ULuaViewModelBridge) (h : LuaHeap) (Name : String)
    (Args : List LuaValue) (T : List (String × LuaValue)) :
    ULuaViewModelBridge.LuaCallFunction env { vm with Table := T } h Name Args
      = { ULuaViewModelBridge.LuaCallFunction env vm h Name Args with
          self := { vm with Table := T } } := by
  unfold ULuaViewModelBridge.LuaCallFunction
  dsimp only
  repeat' split
  all_goals simp_all

theorem vmb_LuaGetProperty_setTable (env : LuaEnv)
    (vm : ULuaViewModelBridge) (h : LuaHeap) (P : String)
    (T : List (String × LuaValue)) :
    ULuaViewModelBridge.LuaGetProperty env { vm with Table := T } h P
      = { ULuaViewModelBridge.LuaGetProperty env vm h P with
          self := { vm with Table := T } } := by
  unfold ULuaViewModelBridge.LuaGetProperty
  dsimp only
  simp only [vmb_CallIfExists_Table_irrel]
  repeat' split
  all_goals simp_all

theorem vmb_LuaSetProperty_setTable (env : LuaEnv)
    (vm : ULuaViewModelBridge) (h : LuaHeap) (P : String) (Value : LuaValue)
    (T : List (String × LuaValue)) :
    ULuaViewModelBridge.LuaSetProperty env { vm with Table := T } h P Value
      = { ULuaViewModelBridge.LuaSetProperty env vm h P Value with
          self := { vm with Table := T } } := by
  unfold ULuaViewModelBridge.LuaSetProperty
  dsimp only
  simp only [vmb_CallIfExists_Table_irrel]
  repeat' split
  all_goals simp_all

theorem vmb_GetState_setTable (env : LuaEnv) (vm : ULuaViewModelBridge)
    (T : List (String × LuaValue)) :
    ULuaViewModelBridge.LuaViewModelGetState env { vm with Table := T }
      = ULuaViewModelBridge.LuaViewModelGetState env vm := rfl

/-- C7: no operation other than initialization reads or modifies the
configured `Table` map: each leaves the map in place, and results and
effects coincide on two instances differing only in their `Table` map. -/
theorem C7_table_map_frame (env : LuaEnv) (w : ULuaCommonUIWidget)
    (vm : ULuaViewModelBridge) (h : LuaHeap)
    (T1 T2 : List (String × LuaValue)) (Name P : String) (Value : LuaValue)
    (Args : List LuaValue) : C7Prop env w vm h T1 T2 Name P Value Args := by
  unfold C7Prop
  refine ⟨?_, ?_, ?_, rfl, rfl, rfl, ?_, ?_, ?_, ?_, ?_, ?_, ?_, ?_, ?_,
    ?_, ?_, ?_, ?_, ?_, ?_, ?_, ?_, ?_, ?_, ?_, ?_, ?_, ?_, ?_, ?_⟩
  · rw [widget_LuaGetField_self]
  · rw [widget_LuaSetField_self]
  · rw [widget_LuaCallFunction_self]
  · rw [vmb_LuaGetField_self]
  · rw [vmb_LuaSetField_self]
  · rw [vmb_LuaCallFunction_self]
  · rw [vmb_LuaGetProperty_self]
  · rw [vmb_LuaSetProperty_self]
  · rw [widget_LuaGetField_setTable w h Name T1,
      widget_LuaGetField_setTable w h Name T2]
  · rw [widget_LuaGetField_setTable w h Name T1,
      widget_LuaGetField_setTable w h Name T2]
  · rw [widget_LuaGetField_setTable w h Name T1,
      widget_LuaGetField_setTable w h Name T2]
  · rw [widget_LuaSetField_setTable w h Name Value T1,
      widget_LuaSetField_setTable w h Name Value T2]
  · rw [widget_LuaSetField_setTable w h Name Value T1,
      widget_LuaSetField_setTable w h Name Value T2]
  · rw [widget_LuaCallFunction_setTable env w h Name Args T1,
      widget_LuaCallFunction_setTable env w h Name Args T2]
  · rw [widget_LuaCallFunction_setTable env w h Name Args T1,
      widget_LuaCallFunction_setTable env w h Name Args T2]
  · rw [widget_LuaCallFunction_setTable env w h Name Args T1,
      widget_LuaCallFunction_setTable env w h Name Args T2]
  · rw [widget_NativeDestruct_setTable env w h T1,
      widget_NativeDestruct_setTable env w h T2]
  · rw [widget_NativeOnActivated_setTable env w h T1,
      widget_NativeOnActivated_setTable env w h T2]
  · rw [widget_NativeOnDeactivated_setTable env w h T1,
      widget_NativeOnDeactivated_setTable env w h T2]
  · rw [widget_GetState_setTable env w T1, widget_GetState_setTable env w T2]
  · rw [vmb_LuaGetField_setTable vm h Name T1,
      vmb_LuaGetField_setTable vm h Name T2]
  · rw [vmb_LuaSetField_setTable vm h Name Value T1,
      vmb_LuaSetField_setTable vm h Name Value T2]
  · rw [vmb_LuaCallFunction_setTable env vm h Name Args T1,
      vmb_LuaCallFunction_setTable env vm h Name Args T2]
  · rw [vmb_LuaGetProperty_setTable env vm h P T1,
      vmb_LuaGetProperty_setTable env vm h P T2]
  · rw [vmb_LuaGetProperty_setTable env vm h P T1,
      vmb_LuaGetProperty_setTable env vm h P T2]
  · rw [vmb_LuaSetProperty_setTable env vm h P Value T1,
      vmb_LuaSetProperty_setTable env vm h P Value T2]
  · rw [vmb_LuaSetProperty_setTable env vm h P Value T1,
      vmb_LuaSetProperty_setTable env vm h P Value T2]
  · rw [vmb_GetState_setTable env vm T1, vmb_GetState_setTable env vm T2]

/-- C8: lifecycle forwarding order of `ULuaCommonUIWidget`:
`NativeConstruct` initializes the Lua table before the construct hook runs
(the hook is invoked on the freshly created table), `NativeOnActivated`
invokes the hook before the `OnLuaActivated` broadcast, and
`NativeOnDeactivated` invokes the hook, then broadcasts
`OnLuaDeactivated`, then runs the superclass deactivation. -/
theorem C8_lifecycle_order (env : LuaEnv) (w : ULuaCommonUIWidget)
    (h : LuaHeap) (cls st : Nat)
    (hcls : w.LuaState = some cls) (hres : env.resolveState cls = some st)
    (hC : w.OnConstructedLuaFunction ≠ "")
    (hCf : LuaValueIsFunction
      (env.globals cls w.OnConstructedLuaFunction) = true)
    (hA : w.OnActivatedLuaFunction ≠ "")
    (hAf : LuaValueIsFunction
      (env.globals cls w.OnActivatedLuaFunction) = true)
    (hD : w.OnDeactivatedLuaFunction ≠ "")
    (hDf : LuaValueIsFunction
      (env.globals cls w.OnDeactivatedLuaFunction) = true) :
    C8Prop env w h cls := by
  obtain ⟨hself, hnr, hf, htr⟩ :=
    InitializeLuaTable_success env w h cls st hcls hres
  unfold C8Prop
  refine ⟨⟨?_, ?_⟩, ?_, ?_⟩
  · unfold ULuaCommonUIWidget.NativeConstruct
    dsimp only
    rw [htr, hself]
    simp [ULuaCommonUIWidget.CallLuaFunctionIfExists, LuaGetGlobal,
      LuaValueCall, hcls, hC, hCf]
  · unfold ULuaCommonUIWidget.NativeConstruct
    dsimp only
    rw [hself]
  · simp [ULuaCommonUIWidget.NativeOnActivated,
      ULuaCommonUIWidget.CallLuaFunctionIfExists, LuaGetGlobal, LuaValueCall,
      hcls, hA, hAf]
  · simp [ULuaCommonUIWidget.NativeOnDeactivated,
      ULuaCommonUIWidget.CallLuaFunctionIfExists, LuaGetGlobal, LuaValueCall,
      hcls, hD, hDf]

/-- Witness for C8 at a concrete environment, widget and heap. -/
theorem C8_witness :
    widgetW.LuaState = some 0 ∧ envW.resolveState 0 = some 0 ∧
    widgetW.OnConstructedLuaFunction ≠ "" ∧
    LuaValueIsFunction
      (envW.globals 0 widgetW.OnConstructedLuaFunction) = true ∧
    C8Prop envW widgetW heapW 0 :=
  ⟨by decide, by decide, by decide, by decide,
    C8_lifecycle_order envW widgetW heapW 0 0 (by decide) (by decide)
      (by decide) (by decide) (by decide) (by decide) (by decide)
      (by decide)⟩

/-- C10: with an uninitialized instance Lua table, `LuaGetField`,
`LuaCallFunction` and `LuaGetProperty` return Lua nil without invoking any
Lua function, and `LuaSetField` and `LuaSetProperty` return without
modifying any table and without broadcasting a field-value change. -/
theorem C10_uninitialized_guards (env : LuaEnv) (w : ULuaCommonUIWidget)
    (vm : ULuaViewModelBridge) (h : LuaHeap) (Name P : String)
    (Value : LuaValue) (Args : List LuaValue)
    (hw : w.WidgetLuaTable.luaType ≠ ELuaValueType.Table)
    (hv : vm.ViewModelLuaTable.luaType ≠ ELuaValueType.Table) :
    C10Prop env w vm h Name P Value Args := by
  unfold C10Prop
  refine ⟨?_, ?_, ?_, ?_, ?_, ?_, ?_, ?_, ?_, ?_, ?_, ?_, ?_, ?_, ?_, ?_⟩
  · simp [ULuaCommonUIWidget.LuaGetField, hw]
  · intro f a
    cases hb : w.bLogError <;>
      simp [ULuaCommonUIWidget.LuaGetField, hw, hb, logIf]
  · simp [ULuaCommonUIWidget.LuaCallFunction, hw]
  · intro f a
    cases hb : w.bLogError <;>
      simp [ULuaCommonUIWidget.LuaCallFunction, hw, hb, logIf]
  · simp [ULuaCommonUIWidget.LuaSetField, hw]
  · simp [ULuaCommonUIWidget.LuaSetField, hw]
  · simp [ULuaViewModelBridge.LuaGetProperty, hv]
  · intro f a
    cases hb : vm.bLogError <;>
      simp [ULuaViewModelBridge.LuaGetProperty, hv, hb, logIf]
  · simp [ULuaViewModelBridge.LuaSetProperty, hv]
  · intro f a
    cases hb : vm.bLogError <;>
      simp [ULuaViewModelBridge.LuaSetProperty, hv, hb, logIf]
  · intro n
    cases hb : vm.bLogError <;>
      simp [ULuaViewModelBridge.LuaSetProperty, hv, hb, logIf]
  · simp [ULuaViewModelBridge.LuaCallFunction, hv]
  · intro f a
    cases hb : vm.bLogError <;>
      simp [ULuaViewModelBridge.LuaCallFunction, hv, hb, logIf]
  · simp [ULuaViewModelBridge.LuaGetField, hv]
  · simp [ULuaViewModelBridge.LuaSetField, hv]
  · simp [ULuaViewModelBridge.LuaSetField, hv]

/-- Witness for C10 at concrete uninitialized bridges. -/
theorem C10_witness :
    widgetU.WidgetLuaTable.luaType ≠ ELuaValueType.Table ∧
    vmU.ViewModelLuaTable.luaType ≠ ELuaValueType.Table ∧
    C10Prop envW widgetU vmU heapW "f" "p" (LuaValue.integer 5) [] :=
  ⟨by decide, by decide,
    C10_uninitialized_guards envW widgetU vmU heapW "f" "p"
      (LuaValue.integer 5) [] (by decide) (by decide)⟩

end LuaMachine
